import Mathlib

set_option maxRecDepth 4000

/-!
Shallow embedding of the Gen-Spark counter service (a rate-limited LLM proxy).

Sources embedded here:
* `src/server.js` (first file): the main Express handler `/api/gen-spark`,
  `/api/credits`, `/api/history`, `/api/reset-counts`, backed by a SQLite
  database with tables `requests(ip, count, date, PRIMARY KEY (ip, date))`
  and `history(id, ip, prompt, response, timestamp)`.
* `src/unnamed/part_001`: a promise-based variant of the same endpoint.
* `src/unnamed/part_000` (second half): an early in-memory variant whose
  `requests` table is created WITHOUT a primary key.

The SQLite tables are modelled as lists of rows; `db.get` with a
`WHERE ip = ? AND date = ?` filter is `List.find?` over the rows, and
`INSERT OR REPLACE` on the keyed table removes the rows with the same
key and inserts the new one (SQLite resolves the PRIMARY KEY conflict by
replacing).  Storage and network failures are supplied by an `Env` value:
the JavaScript is callback-style, so each request observes some outcome
for each of its storage operations and for its provider call, and the
handler is a pure function of those outcomes.
-/

namespace GenSpark

/-- One row of the `requests` table: `(ip, count, date)`. -/
structure QuotaRow where
  ip : String
  date : String
  count : Nat
deriving Repr, DecidableEq

/-- One row of the `history` table (the autoincrement id is the position in
the list; rows are appended at the end).  `prompt` is the raw request field,
which may be absent (`undefined` in JavaScript). -/
structure HistoryEntry where
  ip : String
  prompt : Option String
  response : String
  timestamp : String
deriving Repr, DecidableEq

/-- The persistent state: the two SQLite tables. -/
structure ServerState where
  requests : List QuotaRow
  history : List HistoryEntry
deriving Repr, DecidableEq

/-- One caller-supplied history turn `{prompt, response}`; either field may be
absent in the incoming JSON. -/
structure Turn where
  prompt : Option String
  response : Option String
deriving Repr, DecidableEq

instance : Inhabited Turn := ⟨⟨none, none⟩⟩

/-- One chat message `{role, content}` as assembled by `src/server.js`
(which coerces missing fields with `|| ''`, so `content` is a plain string). -/
structure Message where
  role : String
  content : String
deriving Repr, DecidableEq

/-- One chat message as assembled by the `part_001` variant, which does NOT
coerce missing fields: `content` can be `undefined`. -/
structure MessageP1 where
  role : String
  content : Option String
deriving Repr, DecidableEq

/-- The daily limit; the literal `10` in `if (count >= 10)` and in
`remaining: 10 - (count + 1)`. -/
def DAILY_LIMIT : Nat := 10

/-- `SELECT count FROM requests WHERE ip = ? AND date = ?` via `db.get`:
the first matching row's count, if any. -/
def getCount (reqs : List QuotaRow) (ip date : String) : Option Nat :=
  (reqs.find? (fun r => r.ip == ip && r.date == date)).map QuotaRow.count

/-- `INSERT OR REPLACE INTO requests (ip, count, date) VALUES (?, ?, ?)` on the
table whose primary key is `(ip, date)`: the conflicting rows are replaced. -/
def upsert (reqs : List QuotaRow) (ip date : String) (c : Nat) : List QuotaRow :=
  ⟨ip, date, c⟩ :: reqs.filter (fun r => !(r.ip == ip && r.date == date))

/-- The same `INSERT OR REPLACE` statement run against the `part_000`
in-memory table `requests (ip TEXT, count INTEGER, date TEXT)`, which has no
primary key: with no constraint to conflict with, the statement is a plain
INSERT and appends a new row. -/
def insertNoKey (reqs : List QuotaRow) (ip date : String) (c : Nat) : List QuotaRow :=
  reqs ++ [⟨ip, date, c⟩]

/-- The count the service reports for `(ip, date)`: the stored count, or 0
when no row exists (`row ? row.count : 0`). -/
def peek (s : ServerState) (ip date : String) : Nat :=
  (getCount s.requests ip date).getD 0

/-- The spec's invariant "at most one record per (identity, day)": the keys of
the `requests` rows are pairwise distinct. -/
def keysNodup (reqs : List QuotaRow) : Prop :=
  (reqs.map (fun r => (r.ip, r.date))).Nodup

/-- `POST /api/reset-counts`: `DELETE FROM requests` (the history table is
untouched). -/
def resetCounts (s : ServerState) : ServerState :=
  { requests := [], history := s.history }

/-! ### Conversation assembly (`messages` in `src/server.js`, lines 119-133) -/

/-- The fixed system persona of `src/server.js`. -/
def systemPrompt : String :=
  "\nТи — Gen Spark AI, асистент для українського військовослужбовця. \nНадавай чіткі, корисні відповіді українською мовою з акцентом на:\n- Військові тактики та безпеку\n- Психологічну підтримку\n- IT-навички для військових\n- Фінансові поради\nБудь чемним, підтримуючим та професійним. \nВідповіді мають бути стислими (до 3 речень) та дієвими.\n"

/-- The fixed system persona of the `part_001` variant. -/
def systemPromptP1 : String :=
  "Ти — Gen Spark AI, асистент для українських військових. Відповідай українською мовою стисло (1-3 речення) на теми:\n- Військова тактика та безпека\n- Психологічна підтримка\n- Корисні IT-навички\n- Фінансова грамотність\n\nБудь точним, підтримуючим та професійним."

/-- `history.slice(-3)`: the last `n` elements of the list. -/
def lastN (n : Nat) (l : List Turn) : List Turn :=
  l.drop (l.length - n)

/-- The `flatMap` body of `src/server.js`: each turn becomes a user/assistant
pair, with missing fields coerced by `|| ''`.  (The `try/catch` around the
body never fires for object entries, so it is not reachable here.) -/
def pairsOf : List Turn → List Message
  | [] => []
  | t :: ts =>
      ⟨"user", t.prompt.getD ""⟩ :: ⟨"assistant", t.response.getD ""⟩ :: pairsOf ts

/-- The assembled message list of `src/server.js`:
system persona, then pairs for the last 3 turns, then the new user prompt
(`prompt || ''`). -/
def buildMessages (history : List Turn) (prompt : Option String) : List Message :=
  ⟨"system", systemPrompt⟩ :: (pairsOf (lastN 3 history) ++ [⟨"user", prompt.getD ""⟩])

/-- The `flatMap` body of the `part_001` variant: the fields are passed
through unchanged (no `|| ''`), so a missing field stays `undefined`. -/
def pairsOfP1 : List Turn → List MessageP1
  | [] => []
  | t :: ts =>
      ⟨"user", t.prompt⟩ :: ⟨"assistant", t.response⟩ :: pairsOfP1 ts

/-- The assembled message list of the `part_001` variant. -/
def buildMessagesP1 (history : List Turn) (prompt : Option String) : List MessageP1 :=
  ⟨"system", some systemPromptP1⟩ :: (pairsOfP1 (lastN 3 history) ++ [⟨"user", prompt⟩])

/-! ### Provider call and request orchestration -/

/-- The outcome of the outbound `fetch` to the completion provider, as the
handler observes it:
* `transportError` — the fetch rejected (network failure, abort on the
  10 s timeout) or completed with a non-success HTTP status;
* `answered content` — a success status whose decoded body yields
  `choices[0].message.content` when present (`none` when the chain of
  optional accesses is missing). -/
inductive ProviderOutcome where
  | transportError
  | answered (content : Option String)
deriving Repr, DecidableEq

/-- `src/server.js` lines 165-178: a transport error throws; then
`if (!data?.choices?.[0]?.message?.content) throw` — note that an empty
string is falsy in JavaScript, so `content === ''` also throws.  The result
is the `responseText` when no throw happens. -/
def extractContent : ProviderOutcome → Option String
  | ProviderOutcome.transportError => none
  | ProviderOutcome.answered none => none
  | ProviderOutcome.answered (some c) => if c = "" then none else some c

/-- `part_001` lines 134-140: a non-ok status throws, then
`choices[0].message.content` is read without a falsiness check (a missing
`choices` throws a TypeError, also caught); an empty string is returned
as-is. -/
def rawContent : ProviderOutcome → Option String
  | ProviderOutcome.transportError => none
  | ProviderOutcome.answered c => c

/-- The failure/success outcomes this request will observe from its
environment: whether the quota `db.get` errors, whether the counter `db.run`
errors, the provider outcome, whether the history `db.run` errors, and the
timestamp `new Date().toISOString()` taken at history-insert time. -/
structure Env where
  readErr : Bool
  writeErr : Bool
  provider : ProviderOutcome
  historyWriteErr : Bool
  now : String
deriving Repr, DecidableEq

/-- The outward response of one exchange:
* `serverError` — any HTTP 500 body;
* `quotaExceeded` — the HTTP 429 body;
* `success text remaining model?` — the 200 payload
  `{response, remaining, model?}`. -/
inductive ApiResponse where
  | serverError
  | quotaExceeded
  | success (text : String) (remaining : Int) (model : Option String)
deriving Repr, DecidableEq

/-- What one exchange produced: the outward response (`none` when the handler
never sends one), the resulting database state, and the message list sent to
the provider (`none` when no provider call was made). -/
structure Outcome (μ : Type) where
  response : Option ApiResponse
  state : ServerState
  sent : Option μ
deriving Repr, DecidableEq

/-- The `model` string of the `src/server.js` success payload. -/
def modelName : String := "llama-v3p1-8b-instruct"

/-- The `model` string of the `part_001` success payload (`API_CONFIG.model`). -/
def modelNameP1 : String := "accounts/fireworks/models/mixtral-8x7b-instruct"

/-- `POST /api/gen-spark` of `src/server.js` (lines 79-205).

Control flow of the source, in order:
1. `db.get` on `requests`; on error, respond 500 `{error:'Database error'}`.
2. `count = row ? row.count : 0`; if `count >= 10`, respond 429.
3. `db.run(INSERT OR REPLACE ..., count + 1)`; an error here is only
   logged (`console.error`) — the handler continues either way.
4. Assemble `messages` and `fetch` the provider.
5. On a transport error or a body without `choices[0].message.content`,
   the code throws *inside the async callback passed to `db.get`*.  The
   surrounding `try { db.get(...) } catch` has long returned by then, so
   the throw only rejects the callback's ignored promise: the catch block
   never runs and **no response is sent** (`response := none`).
6. Otherwise insert the history row (an error is only logged) and respond
   `{response, remaining: 10 - (count + 1), model}`. -/
def genSpark (env : Env) (s : ServerState) (ip today : String)
    (prompt : Option String) (history : List Turn) : Outcome (List Message) :=
  if env.readErr then
    { response := some ApiResponse.serverError, state := s, sent := none }
  else
    let count := (getCount s.requests ip today).getD 0
    if count ≥ DAILY_LIMIT then
      { response := some ApiResponse.quotaExceeded, state := s, sent := none }
    else
      let reqs1 := if env.writeErr then s.requests else upsert s.requests ip today (count + 1)
      match extractContent env.provider with
      | none =>
          { response := none
            state := { requests := reqs1, history := s.history }
            sent := some (buildMessages history prompt) }
      | some text =>
          let hist1 := if env.historyWriteErr then s.history
            else s.history ++ [⟨ip, prompt, text, env.now⟩]
          { response := some (ApiResponse.success text
              ((DAILY_LIMIT : Int) - (count + 1)) (some modelName))
            state := { requests := reqs1, history := hist1 }
            sent := some (buildMessages history prompt) }

/-- `POST /api/gen-spark` of the `part_001` variant (lines 78-160).

Differences from `src/server.js`:
* the quota read is wrapped in a promise that rejects on error, so a read
  failure lands in the `catch` and yields one 500 response;
* the counter update is `await new Promise((resolve) => db.run(..., (err) =>
  err ? console.error(...) : resolve()))` — on a write error the promise is
  **never resolved**, the `await` blocks forever, and nothing further runs:
  no provider call, no response (`response := none`);
* provider failures are thrown inside the same `async` function as the
  `try/catch`, so they are caught and yield one 500 response. -/
def genSparkP1 (env : Env) (s : ServerState) (ip today : String)
    (prompt : Option String) (history : List Turn) : Outcome (List MessageP1) :=
  if env.readErr then
    { response := some ApiResponse.serverError, state := s, sent := none }
  else
    let count := (getCount s.requests ip today).getD 0
    if count ≥ DAILY_LIMIT then
      { response := some ApiResponse.quotaExceeded, state := s, sent := none }
    else if env.writeErr then
      { response := none, state := s, sent := none }
    else
      let reqs1 := upsert s.requests ip today (count + 1)
      match rawContent env.provider with
      | none =>
          { response := some ApiResponse.serverError
            state := { requests := reqs1, history := s.history }
            sent := some (buildMessagesP1 history prompt) }
      | some text =>
          let hist1 := if env.historyWriteErr then s.history
            else s.history ++ [⟨ip, prompt, text, env.now⟩]
          { response := some (ApiResponse.success text
              ((DAILY_LIMIT : Int) - (count + 1)) (some modelNameP1))
            state := { requests := reqs1, history := hist1 }
            sent := some (buildMessagesP1 history prompt) }

/-- `POST /api/gen-spark` of the `part_000` in-memory variant (lines 136-184).
Its `requests` table has no primary key, so the counter update appends a row
(`insertNoKey`); there is no history table; the `try/catch` sits inside the
callback directly around the fetch, so provider failures do yield one 500
response.  Returns the outward response and the resulting `requests` rows. -/
def genSparkMem (readErr : Bool) (provider : ProviderOutcome)
    (reqs : List QuotaRow) (ip today : String) :
    Option ApiResponse × List QuotaRow :=
  if readErr then (some ApiResponse.serverError, reqs)
  else
    let count := (getCount reqs ip today).getD 0
    if count ≥ DAILY_LIMIT then (some ApiResponse.quotaExceeded, reqs)
    else
      let reqs1 := insertNoKey reqs ip today (count + 1)
      match rawContent provider with
      | none => (some ApiResponse.serverError, reqs1)
      | some text =>
          (some (ApiResponse.success text ((DAILY_LIMIT : Int) - (count + 1)) none), reqs1)

/-! ### Status query (`GET /api/credits`) -/

/-- The `/api/credits` response of `src/server.js`. -/
inductive CreditsResult where
  | serverError
  | ok (used : Nat) (remaining : Int)
deriving Repr, DecidableEq

/-- `GET /api/credits` of `src/server.js` (lines 208-231): a `db.get` error
yields 500 `{error:'Database error'}`; otherwise
`{used: count, remaining: 10 - count}`. -/
def credits (readErr : Bool) (s : ServerState) (ip today : String) : CreditsResult :=
  if readErr then CreditsResult.serverError
  else
    let count := (getCount s.requests ip today).getD 0
    CreditsResult.ok count ((DAILY_LIMIT : Int) - count)

/-- The `/api/credits` payload of the `part_001` variant (`resetAt`, a clock
value, is not modelled). -/
structure CreditsP1Body where
  used : Nat
  remaining : Int
  limit : Nat
deriving Repr, DecidableEq

/-- `GET /api/credits` of the `part_001` variant (lines 163-184).  Its read is
`await new Promise((resolve) => db.get(..., (err, row) => resolve(row ||
{count: 0})))`: the error argument is ignored and a failed read resolves with
`row` undefined, i.e. `{count: 0}`.  Nothing in the `try` block can reject, so
the `catch` (the `Except.error` side) is unreachable: every read outcome,
error included, produces an `ok` payload. -/
def creditsP1 (readErr : Bool) (s : ServerState) (ip today : String) :
    Except Unit CreditsP1Body :=
  let row : Option Nat := if readErr then none else getCount s.requests ip today
  let count := row.getD 0
  Except.ok ⟨count, (DAILY_LIMIT : Int) - count, DAILY_LIMIT⟩

/-! ### Iterated requests (for the counting property) -/

/-- Run a sequence of exchanges for one identity and day, threading the
database state; each list element supplies that exchange's environment. -/
def runSeq (envs : List Env) (ip today : String) (prompt : Option String)
    (history : List Turn) (s : ServerState) : ServerState :=
  envs.foldl (fun st e => (genSpark e st ip today prompt history).state) s

/-! ### Interleaving model of concurrent exchanges

`src/server.js` performs the quota check and the counter update as two
separate storage operations: the `db.get` completes, its callback computes
`count` and the admit decision synchronously, and then *queues* the
`INSERT OR REPLACE` with the value `count + 1` computed from that (possibly
stale) read.  Between one request's read and its write, another request's
read can execute.  Each process below is one in-flight exchange for the same
identity and day; a step runs the next atomic storage operation of the chosen
process. -/

/-- The phase of one in-flight exchange: before its quota read, between its
read (which admitted it with pre-count `c`) and its write, or finished. -/
inductive ProcState where
  | start
  | pendingWrite (c : Nat)
  | finished (admitted : Bool)
deriving Repr, DecidableEq, BEq

/-- The shared `requests` table plus the phases of the in-flight exchanges. -/
structure ConcSys where
  requests : List QuotaRow
  procs : List ProcState
deriving Repr, DecidableEq

/-- Execute the next atomic storage operation of process `i` (all processes
share one identity and day):
* at `start`, run the `db.get` and the synchronous limit check: reject
  (`finished false`) when `count >= 10`, else remember the pre-count;
* at `pendingWrite c`, run the queued `INSERT OR REPLACE` with `c + 1`. -/
def concStep (ip today : String) (sys : ConcSys) (i : Nat) : ConcSys :=
  match sys.procs.get? i with
  | some ProcState.start =>
      let c := (getCount sys.requests ip today).getD 0
      if c ≥ DAILY_LIMIT then
        { sys with procs := sys.procs.set i (ProcState.finished false) }
      else
        { sys with procs := sys.procs.set i (ProcState.pendingWrite c) }
  | some (ProcState.pendingWrite c) =>
      { requests := upsert sys.requests ip today (c + 1)
        procs := sys.procs.set i (ProcState.finished true) }
  | _ => sys

/-- Run a schedule: the list of process indices in the order their storage
operations reach the database. -/
def runSched (ip today : String) (sys : ConcSys) (sched : List Nat) : ConcSys :=
  sched.foldl (concStep ip today) sys

/-- How many of the exchanges were admitted. -/
def admittedCount (sys : ConcSys) : Nat :=
  (sys.procs.filter (fun p => p == ProcState.finished true)).length

/-- How many of the exchanges were rejected. -/
def rejectedCount (sys : ConcSys) : Nat :=
  (sys.procs.filter (fun p => p == ProcState.finished false)).length

/-- The serialized schedule: each process's read is immediately followed by
its own write. -/
def serialSched (n : Nat) : List Nat :=
  ((List.range n).map (fun i => [i, i])).flatten

/-- The schedule of `n` simultaneous arrivals: all reads are queued before
any callback can queue its write (the natural order when `n` requests hit
`db.get` together). -/
def readsThenWrites (n : Nat) : List Nat :=
  List.range n ++ List.range n

/-! ### Helper lemmas -/

theorem getCount_upsert_self (reqs : List QuotaRow) (ip date : String) (c : Nat) :
    getCount (upsert reqs ip date c) ip date = some c := by
  simp [getCount, upsert, List.find?_cons_of_pos]

theorem peek_state_of_requests (reqs : List QuotaRow) (h : List HistoryEntry)
    (ip date : String) :
    peek ⟨reqs, h⟩ ip date = (getCount reqs ip date).getD 0 := rfl

theorem pairsOf_length (ts : List Turn) : (pairsOf ts).length = 2 * ts.length := by
  induction ts with
  | nil => rfl
  | cons t ts ih => simp [pairsOf, ih]; omega

theorem lastN_length (n : Nat) (l : List Turn) : (lastN n l).length = min n l.length := by
  simp [lastN]; omega

theorem pairsOf_get (ts : List Turn) :
    ∀ i, i < ts.length →
      (pairsOf ts).get? (2 * i) = some ⟨"user", (ts.getD i default).prompt.getD ""⟩
      ∧ (pairsOf ts).get? (2 * i + 1) = some ⟨"assistant", (ts.getD i default).response.getD ""⟩ := by
  induction ts with
  | nil => intro i hi; simp at hi
  | cons t ts ih =>
      intro i hi
      match i with
      | 0 => simp [pairsOf]
      | Nat.succ j =>
          have hj : j < ts.length := by simpa using hi
          obtain ⟨h1, h2⟩ := ih j hj
          have e1 : 2 * (j + 1) = 2 * j + 1 + 1 := by omega
          have e2 : 2 * (j + 1) + 1 = 2 * j + 1 + 1 + 1 := by omega
          refine ⟨?_, ?_⟩
          · rw [e1]; simpa [pairsOf] using h1
          · rw [e2]; simpa [pairsOf] using h2

theorem getLast?_cons_append_singleton (x y : Message) (l : List Message) :
    (x :: (l ++ [y])).getLast? = some y := by
  induction l generalizing x with
  | nil => rfl
  | cons a l ih => simpa using ih a

theorem pairsOfP1_length (ts : List Turn) : (pairsOfP1 ts).length = 2 * ts.length := by
  induction ts with
  | nil => rfl
  | cons t ts ih => simp [pairsOfP1, ih]; omega

theorem pairsOfP1_get (ts : List Turn) :
    ∀ i, i < ts.length →
      (pairsOfP1 ts).get? (2 * i) = some ⟨"user", (ts.getD i default).prompt⟩
      ∧ (pairsOfP1 ts).get? (2 * i + 1) = some ⟨"assistant", (ts.getD i default).response⟩ := by
  induction ts with
  | nil => intro i hi; simp at hi
  | cons t ts ih =>
      intro i hi
      match i with
      | 0 => simp [pairsOfP1]
      | Nat.succ j =>
          have hj : j < ts.length := by simpa using hi
          obtain ⟨h1, h2⟩ := ih j hj
          have e1 : 2 * (j + 1) = 2 * j + 1 + 1 := by omega
          have e2 : 2 * (j + 1) + 1 = 2 * j + 1 + 1 + 1 := by omega
          refine ⟨?_, ?_⟩
          · rw [e1]; simpa [pairsOfP1] using h1
          · rw [e2]; simpa [pairsOfP1] using h2

/-- On an admitted exchange with a working counter write, the resulting
`requests` table is the upsert with the incremented count, whatever the
provider did. -/
theorem genSpark_requests_of_admitted (e : Env) (s : ServerState) (ip today : String)
    (p : Option String) (h : List Turn)
    (hr : e.readErr = false) (hw : e.writeErr = false)
    (hc : peek s ip today < DAILY_LIMIT) :
    (genSpark e s ip today p h).state.requests = upsert s.requests ip today (peek s ip today + 1) := by
  have hnot : ¬ (getCount s.requests ip today).getD 0 ≥ DAILY_LIMIT := Nat.not_le.mpr hc
  unfold genSpark
  rw [hr, hw]
  simp only [Bool.false_eq_true, if_false, hnot]
  cases hx : extractContent e.provider <;> simp [peek]

theorem runSeq_cons (e : Env) (envs : List Env) (ip today : String)
    (p : Option String) (h : List Turn) (s : ServerState) :
    runSeq (e :: envs) ip today p h s
      = runSeq envs ip today p h (genSpark e s ip today p h).state := rfl

/-- The counting invariant: a run of admitted exchanges (benign storage, any
provider outcomes) adds exactly its length to the stored count, as long as
the limit is never hit. -/
theorem runSeq_peek (ip today : String) (p : Option String) (h : List Turn) :
    ∀ (envs : List Env) (s : ServerState),
      (∀ e ∈ envs, e.readErr = false ∧ e.writeErr = false) →
      peek s ip today + envs.length ≤ DAILY_LIMIT →
      peek (runSeq envs ip today p h s) ip today = peek s ip today + envs.length := by
  intro envs
  induction envs with
  | nil => intro s _ _; simp [runSeq]
  | cons e rest ih =>
      intro s hben hlen
      have he : e.readErr = false ∧ e.writeErr = false := hben e (by simp)
      have hrest : ∀ x ∈ rest, x.readErr = false ∧ x.writeErr = false :=
        fun x hx => hben x (List.mem_cons_of_mem _ hx)
      have hc : peek s ip today < DAILY_LIMIT := by
        simp only [List.length_cons] at hlen; omega
      have hreq := genSpark_requests_of_admitted e s ip today p h he.1 he.2 hc
      have hpeek1 : peek (genSpark e s ip today p h).state ip today = peek s ip today + 1 := by
        show (getCount (genSpark e s ip today p h).state.requests ip today).getD 0 = _
        rw [hreq, getCount_upsert_self]
        rfl
      rw [runSeq_cons, ih _ hrest (by rw [hpeek1]; simp only [List.length_cons] at hlen; omega),
        hpeek1]
      simp only [List.length_cons]
      omega

/-- A run environment in which storage works and the provider answers. -/
def benignEnv : Env := ⟨false, false, ProviderOutcome.answered (some "hi there"), false, "T"⟩

/-! ### Claim theorems -/

/-- C1: for every identity and day, `peek` is 0 when no record exists; after
exactly `k` admitted requests (benign storage, any provider outcomes, no
reset) the stored count equals `k`; and a request arriving when the stored
count is `DAILY_LIMIT` is rejected with the quota-exceeded signal, leaving
the whole state unchanged, making no provider call and writing no history
entry. -/
theorem C1_quota_counting :
    (∀ (s : ServerState) (ip today : String),
      getCount s.requests ip today = none → peek s ip today = 0)
  ∧ (∀ (s₀ : ServerState) (ip today : String) (p : Option String) (h : List Turn)
      (envs : List Env),
      getCount s₀.requests ip today = none →
      (∀ e ∈ envs, e.readErr = false ∧ e.writeErr = false) →
      envs.length ≤ DAILY_LIMIT →
      peek (runSeq envs ip today p h s₀) ip today = envs.length)
  ∧ (∀ (s : ServerState) (ip today : String) (p : Option String) (h : List Turn)
      (env : Env),
      env.readErr = false →
      peek s ip today = DAILY_LIMIT →
      genSpark env s ip today p h = ⟨some ApiResponse.quotaExceeded, s, none⟩) := by
  refine ⟨?_, ?_, ?_⟩
  · intro s ip today h0
    simp [peek, h0]
  · intro s₀ ip today p h envs h0 hben hlen
    have hp0 : peek s₀ ip today = 0 := by simp [peek, h0]
    have := runSeq_peek ip today p h envs s₀ hben (by rw [hp0]; omega)
    rw [this, hp0]
    omega
  · intro s ip today p h env hr hpk
    have hge : (getCount s.requests ip today).getD 0 ≥ DAILY_LIMIT := le_of_eq hpk.symm
    unfold genSpark
    rw [hr]
    simp only [Bool.false_eq_true, if_false]
    rw [if_pos hge]

theorem C1_quota_counting_witness :
    peek (runSeq [benignEnv, benignEnv, benignEnv] "1.2.3.4" "2025-01-01" (some "hello") []
        ⟨[], []⟩) "1.2.3.4" "2025-01-01" = 3
  ∧ genSpark benignEnv ⟨[⟨"1.2.3.4", "2025-01-01", 10⟩], []⟩ "1.2.3.4" "2025-01-01"
      (some "hello") []
      = ⟨some ApiResponse.quotaExceeded, ⟨[⟨"1.2.3.4", "2025-01-01", 10⟩], []⟩, none⟩ := by
  refine ⟨?_, ?_⟩
  · have := C1_quota_counting.2.1 ⟨[], []⟩ "1.2.3.4" "2025-01-01" (some "hello") []
      [benignEnv, benignEnv, benignEnv] rfl (by decide) (by decide)
    simpa using this
  · exact C1_quota_counting.2.2 ⟨[⟨"1.2.3.4", "2025-01-01", 10⟩], []⟩ "1.2.3.4" "2025-01-01"
      (some "hello") [] benignEnv rfl (by decide)

/-- C2: the assembled message list is the system persona, then a
user/assistant pair for each of the last 3 turns oldest-to-newest, then the
new user prompt — verified on the spec's 4-turn instance for both the
`src/server.js` assembler and the `part_001` assembler, together with
"system persona first" and "new prompt last" for every input. -/
theorem C2_message_order :
    (∀ p1 r1 p2 r2 p3 r3 p4 r4 p5 : String,
      buildMessages
          [⟨some p1, some r1⟩, ⟨some p2, some r2⟩, ⟨some p3, some r3⟩, ⟨some p4, some r4⟩]
          (some p5)
        = [⟨"system", systemPrompt⟩, ⟨"user", p2⟩, ⟨"assistant", r2⟩, ⟨"user", p3⟩,
            ⟨"assistant", r3⟩, ⟨"user", p4⟩, ⟨"assistant", r4⟩, ⟨"user", p5⟩])
  ∧ (∀ p1 r1 p2 r2 p3 r3 p4 r4 p5 : String,
      buildMessagesP1
          [⟨some p1, some r1⟩, ⟨some p2, some r2⟩, ⟨some p3, some r3⟩, ⟨some p4, some r4⟩]
          (some p5)
        = [⟨"system", some systemPromptP1⟩, ⟨"user", some p2⟩, ⟨"assistant", some r2⟩,
            ⟨"user", some p3⟩, ⟨"assistant", some r3⟩, ⟨"user", some p4⟩,
            ⟨"assistant", some r4⟩, ⟨"user", some p5⟩])
  ∧ (∀ (hist : List Turn) (p : Option String),
      (buildMessages hist p).head? = some ⟨"system", systemPrompt⟩)
  ∧ (∀ (hist : List Turn) (p : Option String),
      (buildMessages hist p).getLast? = some ⟨"user", p.getD ""⟩) :=
  ⟨fun _ _ _ _ _ _ _ _ _ => rfl, fun _ _ _ _ _ _ _ _ _ => rfl, fun _ _ => rfl,
    fun _ _ => getLast?_cons_append_singleton _ _ _⟩

/-- C3: on an admitted exchange whose provider call fails, no history entry
is written and the already-performed quota increment is not rolled back: the
exchange still consumes one daily slot. -/
theorem C3_provider_failure_keeps_slot (env : Env) (s : ServerState) (ip today : String)
    (p : Option String) (h : List Turn)
    (hr : env.readErr = false) (hw : env.writeErr = false)
    (hc : peek s ip today < DAILY_LIMIT)
    (hp : extractContent env.provider = none) :
    genSpark env s ip today p h
      = { response := none
          state := { requests := upsert s.requests ip today (peek s ip today + 1)
                     history := s.history }
          sent := some (buildMessages h p) }
      ∧ peek (genSpark env s ip today p h).state ip today = peek s ip today + 1 := by
  have hnot : ¬ (getCount s.requests ip today).getD 0 ≥ DAILY_LIMIT := Nat.not_le.mpr hc
  have h1 : genSpark env s ip today p h
      = { response := none
          state := { requests := upsert s.requests ip today (peek s ip today + 1)
                     history := s.history }
          sent := some (buildMessages h p) } := by
    unfold genSpark
    rw [hr, hw]
    simp only [Bool.false_eq_true, if_false]
    rw [if_neg hnot, hp]
    rfl
  refine ⟨h1, ?_⟩
  rw [h1]
  show (getCount (upsert s.requests ip today (peek s ip today + 1)) ip today).getD 0 = _
  rw [getCount_upsert_self]
  rfl

theorem C3_provider_failure_keeps_slot_witness :
    genSpark ⟨false, false, ProviderOutcome.transportError, false, "T"⟩
        ⟨[⟨"1.2.3.4", "2025-01-01", 4⟩], []⟩ "1.2.3.4" "2025-01-01" (some "hello") []
      = { response := none
          state := { requests := upsert [⟨"1.2.3.4", "2025-01-01", 4⟩] "1.2.3.4" "2025-01-01" 5
                     history := [] }
          sent := some (buildMessages [] (some "hello")) }
      ∧ peek (genSpark ⟨false, false, ProviderOutcome.transportError, false, "T"⟩
          ⟨[⟨"1.2.3.4", "2025-01-01", 4⟩], []⟩ "1.2.3.4" "2025-01-01" (some "hello") []).state
          "1.2.3.4" "2025-01-01" = 5 :=
  C3_provider_failure_keeps_slot ⟨false, false, ProviderOutcome.transportError, false, "T"⟩
    ⟨[⟨"1.2.3.4", "2025-01-01", 4⟩], []⟩ "1.2.3.4" "2025-01-01" (some "hello") []
    rfl rfl (by decide) rfl

/-- C4: evaluating `src/server.js` at an admitted request whose provider call
fails: the provider is called and the slot consumed, but the handler sends NO
outward response — the `throw` happens inside the async sqlite3 callback and
the orchestrator's `catch` never runs, contradicting "converted into exactly
one outward generic server-error response". -/
theorem C4_provider_failure_sends_no_response :
    genSpark ⟨false, false, ProviderOutcome.transportError, false, "T"⟩ ⟨[], []⟩
        "1.2.3.4" "2025-01-01" (some "hello") []
      = { response := none
          state := { requests := [⟨"1.2.3.4", "2025-01-01", 1⟩], history := [] }
          sent := some (buildMessages [] (some "hello")) } := rfl

/-- C5: on an admitted exchange with pre-increment count `c` whose provider
call succeeds with `text`, exactly one history entry is appended, the count
becomes `c + 1`, and the response carries `text` and
`remaining = DAILY_LIMIT - (c + 1)`. -/
theorem C5_success_path (env : Env) (s : ServerState) (ip today : String)
    (p : Option String) (h : List Turn) (text : String)
    (hr : env.readErr = false) (hw : env.writeErr = false)
    (hh : env.historyWriteErr = false)
    (hc : peek s ip today < DAILY_LIMIT)
    (hp : extractContent env.provider = some text) :
    genSpark env s ip today p h
      = { response := some (ApiResponse.success text
            ((DAILY_LIMIT : Int) - (peek s ip today + 1)) (some modelName))
          state := { requests := upsert s.requests ip today (peek s ip today + 1)
                     history := s.history ++ [⟨ip, p, text, env.now⟩] }
          sent := some (buildMessages h p) }
      ∧ peek (genSpark env s ip today p h).state ip today = peek s ip today + 1 := by
  have hnot : ¬ (getCount s.requests ip today).getD 0 ≥ DAILY_LIMIT := Nat.not_le.mpr hc
  have h1 : genSpark env s ip today p h
      = { response := some (ApiResponse.success text
            ((DAILY_LIMIT : Int) - (peek s ip today + 1)) (some modelName))
          state := { requests := upsert s.requests ip today (peek s ip today + 1)
                     history := s.history ++ [⟨ip, p, text, env.now⟩] }
          sent := some (buildMessages h p) } := by
    unfold genSpark
    rw [hr, hw, hh]
    simp only [Bool.false_eq_true, if_false]
    rw [if_neg hnot, hp]
    rfl
  refine ⟨h1, ?_⟩
  rw [h1]
  show (getCount (upsert s.requests ip today (peek s ip today + 1)) ip today).getD 0 = _
  rw [getCount_upsert_self]
  rfl

theorem C5_success_path_witness :
    genSpark ⟨false, false, ProviderOutcome.answered (some "hi there"), false, "T"⟩ ⟨[], []⟩
        "1.2.3.4" "2025-01-01" (some "hello") []
      = { response := some (ApiResponse.success "hi there" 9 (some modelName))
          state := { requests := [⟨"1.2.3.4", "2025-01-01", 1⟩]
                     history := [⟨"1.2.3.4", some "hello", "hi there", "T"⟩] }
          sent := some (buildMessages [] (some "hello")) }
      ∧ peek (genSpark ⟨false, false, ProviderOutcome.answered (some "hi there"), false, "T"⟩
          ⟨[], []⟩ "1.2.3.4" "2025-01-01" (some "hello") []).state "1.2.3.4" "2025-01-01" = 1 :=
  C5_success_path ⟨false, false, ProviderOutcome.answered (some "hi there"), false, "T"⟩
    ⟨[], []⟩ "1.2.3.4" "2025-01-01" (some "hello") [] "hi there" rfl rfl rfl (by decide) rfl

/-- C6 counterexample: the `part_001` status query, evaluated at a state whose
stored count is 7 while the storage read fails: it responds with the normal
payload `{used: 0, remaining: 10, limit: 10}` — the failure is treated exactly
like "no record" and is not surfaced as a server error. -/
theorem C6_counterexample :
    creditsP1 true ⟨[⟨"1.2.3.4", "2025-01-01", 7⟩], []⟩ "1.2.3.4" "2025-01-01"
      = Except.ok ⟨0, 10, 10⟩
    ∧ creditsP1 true ⟨[⟨"1.2.3.4", "2025-01-01", 7⟩], []⟩ "1.2.3.4" "2025-01-01"
      ≠ Except.error () :=
  ⟨rfl, by simp [creditsP1]⟩

/-- C6 amended: a storage failure on the quota read during the primary
operation, and on the `src/server.js` status query, is surfaced as a server
error without touching state or provider; the `part_001` status query instead
ignores the error and reports count 0. -/
theorem C6_read_failure_handling :
    (∀ (env : Env) (s : ServerState) (ip today : String) (p : Option String)
      (h : List Turn),
      env.readErr = true →
      genSpark env s ip today p h = ⟨some ApiResponse.serverError, s, none⟩)
  ∧ (∀ (s : ServerState) (ip today : String),
      credits true s ip today = CreditsResult.serverError)
  ∧ (∀ (s : ServerState) (ip today : String),
      creditsP1 true s ip today = Except.ok ⟨0, (DAILY_LIMIT : Int), DAILY_LIMIT⟩) := by
  refine ⟨?_, fun _ _ _ => rfl, fun _ _ _ => rfl⟩
  intro env s ip today p h hr
  unfold genSpark
  rw [hr]
  rfl

theorem C6_read_failure_handling_witness :
    genSpark ⟨true, false, ProviderOutcome.transportError, false, "T"⟩
        ⟨[⟨"1.2.3.4", "2025-01-01", 7⟩], []⟩ "1.2.3.4" "2025-01-01" (some "hello") []
      = ⟨some ApiResponse.serverError, ⟨[⟨"1.2.3.4", "2025-01-01", 7⟩], []⟩, none⟩ :=
  C6_read_failure_handling.1 ⟨true, false, ProviderOutcome.transportError, false, "T"⟩
    ⟨[⟨"1.2.3.4", "2025-01-01", 7⟩], []⟩ "1.2.3.4" "2025-01-01" (some "hello") [] rfl

/-- C7 counterexample: in the `part_001` assembler, a turn missing its
`response` yields an assistant entry whose content is absent (`undefined`
passed through), not the empty string. -/
theorem C7_counterexample :
    (buildMessagesP1 [⟨some "q", none⟩] (some "z")).get? 2 = some ⟨"assistant", none⟩
    ∧ (buildMessagesP1 [⟨some "q", none⟩] (some "z")).get? 2 ≠ some ⟨"assistant", some ""⟩ :=
  ⟨rfl, by decide⟩

/-- C7 amended: both assemblers always emit `1 + 2·min(3,|history|) + 1`
entries with user/assistant pair alignment preserved; `src/server.js` coerces
a missing field to the empty string, while `part_001` passes the missing
field through unchanged. -/
theorem C7_pair_alignment (hist : List Turn) (p : Option String) :
    ((buildMessages hist p).length = 2 + 2 * min 3 hist.length
      ∧ (buildMessagesP1 hist p).length = 2 + 2 * min 3 hist.length)
  ∧ (∀ i, i < (lastN 3 hist).length →
      (buildMessages hist p).get? (1 + 2 * i)
          = some ⟨"user", ((lastN 3 hist).getD i default).prompt.getD ""⟩
      ∧ (buildMessages hist p).get? (2 + 2 * i)
          = some ⟨"assistant", ((lastN 3 hist).getD i default).response.getD ""⟩)
  ∧ (∀ i, i < (lastN 3 hist).length →
      (buildMessagesP1 hist p).get? (1 + 2 * i)
          = some ⟨"user", ((lastN 3 hist).getD i default).prompt⟩
      ∧ (buildMessagesP1 hist p).get? (2 + 2 * i)
          = some ⟨"assistant", ((lastN 3 hist).getD i default).response⟩) := by
  refine ⟨⟨?_, ?_⟩, ?_, ?_⟩
  · simp [buildMessages, pairsOf_length, lastN_length]
    omega
  · simp [buildMessagesP1, pairsOfP1_length, lastN_length]
    omega
  · intro i hi
    have h2i : 2 * i < (pairsOf (lastN 3 hist)).length := by rw [pairsOf_length]; omega
    have h2i1 : 2 * i + 1 < (pairsOf (lastN 3 hist)).length := by rw [pairsOf_length]; omega
    obtain ⟨g1, g2⟩ := pairsOf_get (lastN 3 hist) i hi
    refine ⟨?_, ?_⟩
    · rw [show 1 + 2 * i = 2 * i + 1 from by omega,
        show buildMessages hist p
          = ⟨"system", systemPrompt⟩ :: (pairsOf (lastN 3 hist) ++ [⟨"user", p.getD ""⟩])
          from rfl,
        List.get?_cons_succ, List.get?_append h2i]
      exact g1
    · rw [show 2 + 2 * i = (2 * i + 1) + 1 from by omega,
        show buildMessages hist p
          = ⟨"system", systemPrompt⟩ :: (pairsOf (lastN 3 hist) ++ [⟨"user", p.getD ""⟩])
          from rfl,
        List.get?_cons_succ, List.get?_append h2i1]
      exact g2
  · intro i hi
    have h2i : 2 * i < (pairsOfP1 (lastN 3 hist)).length := by rw [pairsOfP1_length]; omega
    have h2i1 : 2 * i + 1 < (pairsOfP1 (lastN 3 hist)).length := by
      rw [pairsOfP1_length]; omega
    obtain ⟨g1, g2⟩ := pairsOfP1_get (lastN 3 hist) i hi
    refine ⟨?_, ?_⟩
    · rw [show 1 + 2 * i = 2 * i + 1 from by omega,
        show buildMessagesP1 hist p
          = ⟨"system", some systemPromptP1⟩ :: (pairsOfP1 (lastN 3 hist) ++ [⟨"user", p⟩])
          from rfl,
        List.get?_cons_succ, List.get?_append h2i]
      exact g1
    · rw [show 2 + 2 * i = (2 * i + 1) + 1 from by omega,
        show buildMessagesP1 hist p
          = ⟨"system", some systemPromptP1⟩ :: (pairsOfP1 (lastN 3 hist) ++ [⟨"user", p⟩])
          from rfl,
        List.get?_cons_succ, List.get?_append h2i1]
      exact g2

theorem C7_pair_alignment_witness :
    0 < (lastN 3 [⟨some "q", none⟩]).length
    ∧ (buildMessages [⟨some "q", none⟩] (some "z")).get? 2 = some ⟨"assistant", ""⟩ := by
  refine ⟨by decide, ?_⟩
  exact ((C7_pair_alignment [⟨some "q", none⟩] (some "z")).2.1 0 (by decide)).2

/-- C8: evaluating the `part_000` in-memory variant, whose `requests` table
is created without a primary key: two admitted requests from one identity on
one day, starting from an empty store, leave TWO rows for the same
(identity, day), violating "at most one QuotaRecord per (identity, day)". -/
theorem C8_in_memory_variant_duplicates :
    (genSparkMem false (ProviderOutcome.answered (some "ok2"))
        (genSparkMem false (ProviderOutcome.answered (some "ok1")) [] "1.2.3.4" "2025-01-01").2
        "1.2.3.4" "2025-01-01").2
      = [⟨"1.2.3.4", "2025-01-01", 1⟩, ⟨"1.2.3.4", "2025-01-01", 2⟩]
    ∧ ¬ keysNodup [⟨"1.2.3.4", "2025-01-01", 1⟩, ⟨"1.2.3.4", "2025-01-01", 2⟩] :=
  ⟨rfl, by simp [keysNodup]⟩

/-- C9 counterexample: with exactly one slot remaining (stored count 9) and
two concurrent requests, the interleaving read-read-write-write — the natural
order for simultaneous arrivals, since each write is only queued by its read's
callback — admits BOTH requests. -/
theorem C9_counterexample :
    (runSched "1.2.3.4" "2025-01-01"
        ⟨[⟨"1.2.3.4", "2025-01-01", 9⟩], [ProcState.start, ProcState.start]⟩
        [0, 1, 0, 1]).procs
      = [ProcState.finished true, ProcState.finished true] := by decide

/-- C9 amended: the check-then-increment of `src/server.js` is two separate
storage operations, not an atomic unit: 15 simultaneous requests
(all reads before all writes) are ALL admitted — and the stored count even
ends at 1 — while only a fully serialized schedule admits exactly
`DAILY_LIMIT` and rejects 5. -/
theorem C9_nonatomic_check_then_increment :
    admittedCount (runSched "1.2.3.4" "2025-01-01"
        ⟨[], List.replicate 15 ProcState.start⟩ (readsThenWrites 15)) = 15
  ∧ peek ⟨(runSched "1.2.3.4" "2025-01-01"
        ⟨[], List.replicate 15 ProcState.start⟩ (readsThenWrites 15)).requests, []⟩
        "1.2.3.4" "2025-01-01" = 1
  ∧ admittedCount (runSched "1.2.3.4" "2025-01-01"
        ⟨[], List.replicate 15 ProcState.start⟩ (serialSched 15)) = 10
  ∧ rejectedCount (runSched "1.2.3.4" "2025-01-01"
        ⟨[], List.replicate 15 ProcState.start⟩ (serialSched 15)) = 5 :=
  ⟨by decide, by decide, by decide, by decide⟩

/-- C10 counterexample: in the `part_001` variant, an admitted request whose
counter write fails makes NO provider call and sends NO response (the
increment promise is never resolved, so the handler stalls), contradicting
"the provider call still proceeds and a success response can be returned". -/
theorem C10_counterexample :
    genSparkP1 ⟨false, true, ProviderOutcome.answered (some "hi"), false, "T"⟩ ⟨[], []⟩
        "1.2.3.4" "2025-01-01" (some "q") []
      = { response := none, state := ⟨[], []⟩, sent := none } := rfl

/-- C10 amended: in `src/server.js` a failed counter write is only logged:
the provider is still called, a success response is returned with `remaining`
computed from the pre-increment count, and the stored count is unchanged (no
slot consumed).  In the `part_001` variant the same failure stalls the
handler before the provider call: no call, no response, state unchanged. -/
theorem C10_write_failure_behavior (env : Env) (s : ServerState) (ip today : String)
    (p : Option String) (h : List Turn) (text : String)
    (hr : env.readErr = false) (hw : env.writeErr = true)
    (hh : env.historyWriteErr = false)
    (hc : peek s ip today < DAILY_LIMIT)
    (hp : extractContent env.provider = some text) :
    genSpark env s ip today p h
      = { response := some (ApiResponse.success text
            ((DAILY_LIMIT : Int) - (peek s ip today + 1)) (some modelName))
          state := { requests := s.requests
                     history := s.history ++ [⟨ip, p, text, env.now⟩] }
          sent := some (buildMessages h p) }
    ∧ genSparkP1 env s ip today p h = { response := none, state := s, sent := none } := by
  have hnot : ¬ (getCount s.requests ip today).getD 0 ≥ DAILY_LIMIT := Nat.not_le.mpr hc
  constructor
  · unfold genSpark
    rw [hr, hw, hh]
    simp only [Bool.false_eq_true, if_false, if_true]
    rw [if_neg hnot, hp]
    rfl
  · unfold genSparkP1
    rw [hr, hw]
    simp only [Bool.false_eq_true, if_false, if_true]
    rw [if_neg hnot]

theorem C10_write_failure_behavior_witness :
    genSpark ⟨false, true, ProviderOutcome.answered (some "hi there"), false, "T"⟩
        ⟨[⟨"1.2.3.4", "2025-01-01", 4⟩], []⟩ "1.2.3.4" "2025-01-01" (some "hello") []
      = { response := some (ApiResponse.success "hi there" 5 (some modelName))
          state := { requests := [⟨"1.2.3.4", "2025-01-01", 4⟩]
                     history := [⟨"1.2.3.4", some "hello", "hi there", "T"⟩] }
          sent := some (buildMessages [] (some "hello")) }
    ∧ genSparkP1 ⟨false, true, ProviderOutcome.answered (some "hi there"), false, "T"⟩
        ⟨[⟨"1.2.3.4", "2025-01-01", 4⟩], []⟩ "1.2.3.4" "2025-01-01" (some "hello") []
      = { response := none, state := ⟨[⟨"1.2.3.4", "2025-01-01", 4⟩], []⟩, sent := none } :=
  C10_write_failure_behavior
    ⟨false, true, ProviderOutcome.answered (some "hi there"), false, "T"⟩
    ⟨[⟨"1.2.3.4", "2025-01-01", 4⟩], []⟩ "1.2.3.4" "2025-01-01" (some "hello") [] "hi there"
    rfl rfl rfl (by decide) rfl

end GenSpark

